import Mathlib

/- Verification development for the OME-Zarr tile-source adapter
   (src/src/utils/omeZarrTileSource.js) and the overlay coordinate
   transforms (src/src/views/OpenSeadragonTest.vue), as a shallow
   embedding in Lean 4. JS numbers are modelled as rationals; option
   values that may be undefined, null, NaN, numeric or boolean are
   modelled by the JSVal type; asynchronous collaborators (the zarr
   region read and the Image element load) are modelled as oracles
   passed to the embedded functions. -/

namespace OmeZarr

/-- Model of a JS value as it may appear in a construction options field:
undefined (absent), null, NaN, a finite number, or a boolean. -/
inductive JSVal where
  | undef
  | nullv
  | nan
  | num (q : ℚ)
  | bool (b : Bool)
deriving DecidableEq

/-- JS truthiness: 0, NaN, null, undefined and false are falsy. -/
def truthy : JSVal → Bool
  | JSVal.num q => decide (q ≠ 0)
  | JSVal.bool b => b
  | _ => false

/-- JS logical-or on values: the left operand when truthy, else the right. -/
def jsOr (a b : JSVal) : JSVal := if truthy a then a else b

/-- JS comparison n >= v of a natural n against a JSVal, following the
coercion rules of the >= operator: null coerces to 0, undefined and NaN
compare false, booleans coerce to 0 or 1. -/
def jsGeNum (n : ℕ) (v : JSVal) : Bool :=
  match v with
  | JSVal.num q => decide (q ≤ (n : ℚ))
  | JSVal.bool b => decide ((if b then (1 : ℚ) else 0) ≤ (n : ℚ))
  | JSVal.nullv => true
  | JSVal.undef => false
  | JSVal.nan => false

/-- A 2-D sample buffer as returned by a zarr region read: its actual
shape (h rows, w columns) and a sample value at each in-range index. -/
structure Buffer where
  h : ℕ
  w : ℕ
  val : ℕ → ℕ → ℚ

/-- An RGBA canvas: width, height, and the flat ImageData byte array of
length width * height * 4 (createImageData initialises it to zeros). -/
structure Canvas where
  width : ℕ
  height : ℕ
  data : List ℤ
deriving DecidableEq

/-- The normalization divisor of dataToCanvas: max - min || 1
(the JS falsy value 0 defaults to 1). -/
def rangeOf (mn mx : ℚ) : ℚ := if mx - mn = 0 then 1 else mx - mn

/-- The 8-bit intensity of one sample, from the pixel loop of dataToCanvas:
Math.round(Math.min(255, Math.max(0, ((rawValue - min) / range) * 255))).
The code hoists range out of the loop; it is the same value for every
pixel of the call, so recomputing it per sample is equivalent. -/
def normalizePixel (raw mn mx : ℚ) : ℤ :=
  round (min 255 (max 0 ((raw - mn) / rangeOf mn mx * 255)))

/-- Follows the words of the spec, section 4.3, for comparison with the
code: intensity = round(clamp((value - min) / (max - min || 1), 0, 1) * 255). -/
def specIntensity (raw mn mx : ℚ) : ℤ :=
  round (min 1 (max 0 ((raw - mn) / (if mx - mn = 0 then 1 else mx - mn))) * 255)

/-- The four ImageData writes for one pixel at flat byte offset idx:
R, G and B receive the intensity, A receives 255. -/
def writePixel (l : List ℤ) (idx : ℕ) (v : ℤ) : List ℤ :=
  (((l.set idx v).set (idx + 1) v).set (idx + 2) v).set (idx + 3) 255

/-- The min scan of dataToCanvas: min starts at Infinity and is lowered by
every strictly smaller sample; none stands for the never-updated initial
Infinity. Every buffer this code receives in the modelled scenarios is
nonempty, for which the model coincides with the code. -/
def scanMin (d : Buffer) : Option ℚ :=
  (List.range d.h).foldl
    (fun acc y => (List.range d.w).foldl
      (fun acc2 x =>
        match acc2 with
        | none => some (d.val y x)
        | some m => if d.val y x < m then some (d.val y x) else some m) acc)
    none

/-- The max scan of dataToCanvas, symmetric to the min scan. -/
def scanMax (d : Buffer) : Option ℚ :=
  (List.range d.h).foldl
    (fun acc y => (List.range d.w).foldl
      (fun acc2 x =>
        match acc2 with
        | none => some (d.val y x)
        | some m => if m < d.val y x then some (d.val y x) else some m) acc)
    none

/-- The JS chain a || d for a nullable number a against a numeric
default d: null and 0 fall through to the default. -/
def jsOrQ (a : Option ℚ) (d : ℚ) : ℚ :=
  match a with
  | none => d
  | some q => if q = 0 then d else q

/-- Result of one dataToCanvas call: the updated stored normalization
state, the produced canvas, and instrumentation recording whether this
call scanned the buffer and which min/max the pixel loop actually used. -/
structure DtcResult where
  minValue : Option ℚ
  maxValue : Option ℚ
  didScan : Bool
  usedMin : ℚ
  usedMax : ℚ
  canvas : Canvas

/-- dataToCanvas(data, width, height): builds a width x height ImageData,
auto-computes and stores min/max from the buffer when autoNormalize is on
and a stored bound is null, resolves the used bounds through the falsy
chains this.minValue || min || 0 and this.maxValue || max || 255, and
writes each sample at flat index (y * actualWidth + x) * 4. -/
def dataToCanvas (minValue maxValue : Option ℚ) (autoNormalize : Bool)
    (data : Buffer) (width height : ℕ) : DtcResult :=
  let didScan := autoNormalize && (decide (minValue = none) || decide (maxValue = none))
  let localMin := if didScan then scanMin data else minValue
  let localMax := if didScan then scanMax data else maxValue
  let stMin := if didScan && decide (minValue = none) then localMin else minValue
  let stMax := if didScan && decide (maxValue = none) then localMax else maxValue
  let usedMin := jsOrQ stMin (jsOrQ localMin 0)
  let usedMax := jsOrQ stMax (jsOrQ localMax 255)
  let init := List.replicate (width * height * 4) (0 : ℤ)
  let pixels := (List.range data.h).foldl
    (fun acc y => (List.range data.w).foldl
      (fun acc2 x =>
        writePixel acc2 ((y * data.w + x) * 4)
          (normalizePixel (data.val y x) usedMin usedMax)) acc)
    init
  { minValue := stMin, maxValue := stMax, didScan := didScan,
    usedMin := usedMin, usedMax := usedMax,
    canvas := { width := width, height := height, data := pixels } }

/-- Map.set: updates the value in place when the key is already present
(JS Maps preserve the entry position), otherwise appends at the end. -/
def mapSet {α : Type} : List (String × α) → String → α → List (String × α)
  | [], k, v => [(k, v)]
  | (k2, v2) :: rest, k, v =>
    if k2 = k then (k, v) :: rest else (k2, v2) :: mapSet rest k v

/-- Map.get as used after Map.has: a pure lookup with no effect on the
insertion order. -/
def mapLookup {α : Type} : List (String × α) → String → Option α
  | [], _ => none
  | (k2, v2) :: rest, k => if k2 = k then some v2 else mapLookup rest k

/-- addToCache(key, canvas): when size >= maxCacheSize, delete the first
(oldest-inserted) key, then Map.set the new entry. On an empty map the
first key is undefined and delete(undefined) is a no-op, which List.tail
also models. -/
def addToCache {α : Type} (maxCacheSize : JSVal) (c : List (String × α))
    (k : String) (v : α) : List (String × α) :=
  let c2 := if jsGeNum c.length maxCacheSize then c.tail else c
  mapSet c2 k v

/-- One cache operation: a put (addToCache) or a get (pure lookup). -/
inductive CacheOp where
  | put (k : String) (v : ℕ)
  | get (k : String)

/-- Run a sequence of cache operations; a get does not modify the map. -/
def runOps (cap : JSVal) (ops : List CacheOp) (c : List (String × ℕ)) :
    List (String × ℕ) :=
  ops.foldl
    (fun acc op =>
      match op with
      | CacheOp.put k v => addToCache cap acc k v
      | CacheOp.get _ => acc) c

/-- One resolution level as recorded by initialize: the actual shape and
chunk shape reported by the opened zarr array. -/
structure LevelEntry where
  shape : List ℕ
  chunks : List ℕ
deriving DecidableEq

/-- The construction options object. Section 6 of the spec lists fixedMin
and fixedMax as accepted configuration; the constructor in the code reads
only maxCacheSize and autoNormalize. -/
structure Options where
  maxCacheSize : JSVal
  autoNormalize : JSVal
  fixedMin : JSVal
  fixedMax : JSVal
deriving DecidableEq

/-- The OmeZarrTileSource instance fields driving the tile pipeline. -/
structure AdapterState where
  levels : List LevelEntry
  tileCache : List (String × Canvas)
  maxCacheSize : JSVal
  minValue : Option ℚ
  maxValue : Option ℚ
  autoNormalize : Bool

/-- The constructor: tileCache = new Map(), maxCacheSize =
options.maxCacheSize || 100, minValue = maxValue = null, autoNormalize =
options.autoNormalize !== false. zarrArrays starts empty and is filled
later by initialize. -/
def construct (o : Options) : AdapterState :=
  { levels := [], tileCache := [],
    maxCacheSize := jsOr o.maxCacheSize (JSVal.num 100),
    minValue := none, maxValue := none,
    autoNormalize := decide (o.autoNormalize ≠ JSVal.bool false) }

/-- The storage level computed by getTileImage:
zarrArrays.length - 1 - level. -/
def zarrLevelIndex (numLevels : ℕ) (level : ℤ) : ℤ :=
  (numLevels : ℤ) - 1 - level

/-- The invalid-level error message thrown by getTileImage. -/
def invalidLevelMsg (numLevels : ℕ) (z : ℤ) : String :=
  "Invalid zarr level index: " ++ toString z ++ " (total levels: "
    ++ toString numLevels ++ ")"

/-- Level inversion with its bounds check, performed by getTileImage
before any data is read. -/
def resolveZarrLevel (numLevels : ℕ) (level : ℤ) : Except String ℤ :=
  let z := zarrLevelIndex numLevels level
  if z < 0 ∨ (numLevels : ℤ) ≤ z then
    Except.error (invalidLevelMsg numLevels z)
  else Except.ok z

/-- A region read issued to a zarr array: the storage level index, the
optional channel, and the half-open row and column ranges. -/
structure FetchReq where
  levelIndex : ℕ
  channel : Option ℕ
  yStart : ℕ
  yEnd : ℕ
  xStart : ℕ
  xEnd : ℕ
deriving DecidableEq

/-- A completion delivered on the engine request context: context.finish(img)
on success (the image carrying the canvas it was synthesized from), or
context.finish(null, null, msg) on failure. -/
inductive FinishCall where
  | success (img : Canvas)
  | failure (msg : String)
deriving DecidableEq

/-- Result of one getTileImage run: the updated instance state, the finish
calls made on the context, the region reads issued, and how many times the
buffer-to-canvas normalizer ran. -/
structure GTIResult where
  state : AdapterState
  finishes : List FinishCall
  fetches : List FetchReq
  normCalls : ℕ

/-- The tile cache key built by getTileImage. -/
def tileKey (level : ℤ) (x y : ℕ) : String :=
  toString level ++ "-" ++ toString x ++ "-" ++ toString y

/-- getTileImage(context) for the tile (level, x, y). The zarr region read
(await array.get) is modelled by the fetch oracle, which either returns a
buffer or rejects with a message; whether an Image element created from a
canvas data URL fires onload or onerror is modelled by the imgOk oracle.
Every path of the try block ends in exactly one finish call, the catch
converting any thrown error into a failure finish. -/
def getTileImage (st : AdapterState) (fetch : FetchReq → Except String Buffer)
    (imgOk : Bool) (level : ℤ) (x y : ℕ) : GTIResult :=
  let cacheKey := tileKey level x y
  match mapLookup st.tileCache cacheKey with
  | some canvas =>
    { state := st,
      finishes := [if imgOk then FinishCall.success canvas
                   else FinishCall.failure "Failed to load cached tile"],
      fetches := [], normCalls := 0 }
  | none =>
    match resolveZarrLevel st.levels.length level with
    | Except.error msg =>
      { state := st, finishes := [FinishCall.failure msg],
        fetches := [], normCalls := 0 }
    | Except.ok z =>
      let entry := st.levels.getD z.toNat { shape := [], chunks := [] }
      let shape := entry.shape
      let chunks := entry.chunks
      let hasChannels := shape.length == 3
      let tileWidth := if hasChannels then chunks.getD 2 0 else chunks.getD 1 0
      let tileHeight := if hasChannels then chunks.getD 1 0 else chunks.getD 0 0
      let yStart := y * tileHeight
      let xStart := x * tileWidth
      let yEnd := min (yStart + tileHeight)
        (if hasChannels then shape.getD 1 0 else shape.getD 0 0)
      let xEnd := min (xStart + tileWidth)
        (if hasChannels then shape.getD 2 0 else shape.getD 1 0)
      let req : FetchReq :=
        { levelIndex := z.toNat,
          channel := if hasChannels then some 0 else none,
          yStart := yStart, yEnd := yEnd, xStart := xStart, xEnd := xEnd }
      match fetch req with
      | Except.error msg =>
        { state := st, finishes := [FinishCall.failure msg],
          fetches := [req], normCalls := 0 }
      | Except.ok tileData =>
        let r := dataToCanvas st.minValue st.maxValue st.autoNormalize
          tileData tileWidth tileHeight
        { state :=
            { st with
              minValue := r.minValue,
              maxValue := r.maxValue,
              tileCache := addToCache st.maxCacheSize st.tileCache cacheKey r.canvas },
          finishes := [if imgOk then FinishCall.success r.canvas
                       else FinishCall.failure "Failed to create image from canvas"],
          fetches := [req], normCalls := 1 }

/-- downloadTileStart(context): calls getTileImage and attaches a catch
that would convert a promise rejection into a failure finish. The try and
catch inside getTileImage already convert every internal error into a
finish call, so the composition returns its result unchanged. -/
def downloadTileStart (st : AdapterState) (fetch : FetchReq → Except String Buffer)
    (imgOk : Bool) (level : ℤ) (x y : ℕ) : GTIResult :=
  getTileImage st fetch imgOk level x y

/-- Modelled from the spec: the host pan/zoom engine owns the viewport
transform, which is not part of this repository. Section 4.7 describes
three spaces related by the pan/zoom view transform; the model records the
viewport point shown at canvas pixel (0, 0), the scale from viewport units
to canvas pixels, and the content width used to normalize image pixels. -/
structure ViewerState where
  originX : ℚ
  originY : ℚ
  pxPerVp : ℚ
  imageWidth : ℚ

/-- Modelled from the spec: the engine primitive
viewer.viewport.imageToViewportCoordinates, normalizing image pixels by
the content width. -/
def imageToViewportCoordinates (vs : ViewerState) (x y : ℚ) : ℚ × ℚ :=
  (x / vs.imageWidth, y / vs.imageWidth)

/-- Modelled from the spec: the engine primitive
viewer.viewport.pixelFromPoint, the affine map from viewport points to
canvas pixels under the current pan and zoom. -/
def pixelFromPoint (vs : ViewerState) (p : ℚ × ℚ) : ℚ × ℚ :=
  ((p.1 - vs.originX) * vs.pxPerVp, (p.2 - vs.originY) * vs.pxPerVp)

/-- Modelled from the spec: the engine primitive
viewer.viewport.pointFromPixel, inverse of pixelFromPoint. -/
def pointFromPixel (vs : ViewerState) (q : ℚ × ℚ) : ℚ × ℚ :=
  (q.1 / vs.pxPerVp + vs.originX, q.2 / vs.pxPerVp + vs.originY)

/-- Modelled from the spec: the engine primitive
viewer.viewport.viewportToImageCoordinates, inverse of
imageToViewportCoordinates. -/
def viewportToImageCoordinates (vs : ViewerState) (v : ℚ × ℚ) : ℚ × ℚ :=
  (v.1 * vs.imageWidth, v.2 * vs.imageWidth)

/-- imageToCanvas(x, y) from the drawing overlay: image pixel to viewport
to canvas pixel. -/
def imageToCanvas (vs : ViewerState) (x y : ℚ) : ℚ × ℚ :=
  pixelFromPoint vs (imageToViewportCoordinates vs x y)

/-- canvasToImage(cx, cy) from the drawing overlay: canvas pixel to
viewport to image pixel. -/
def canvasToImage (vs : ViewerState) (cx cy : ℚ) : ℚ × ℚ :=
  viewportToImageCoordinates vs (pointFromPixel vs (cx, cy))

/-- A 1 x 1 buffer holding the single sample 0. -/
def bufZero : Buffer := { h := 1, w := 1, val := fun _ _ => 0 }

/-- A 1 x 1 buffer holding the single sample 100. -/
def bufHundred : Buffer := { h := 1, w := 1, val := fun _ _ => 100 }

/-- A 1 x 3 buffer holding the samples 10, 20, 30 of the spec scenario. -/
def bufScenario : Buffer := { h := 1, w := 3, val := fun _ x => 10 + 10 * x }

/-- A single stored level of shape 6 x 6 with 4 x 4 chunks, whose
bottom-right tile (1, 1) covers only a 2 x 2 in-bounds region. -/
def levelC2 : LevelEntry := { shape := [6, 6], chunks := [4, 4] }

/-- A freshly initialised adapter over that single level. -/
def stC2 : AdapterState :=
  { levels := [levelC2], tileCache := [], maxCacheSize := JSVal.num 100,
    minValue := none, maxValue := none, autoNormalize := true }

/-- A fetch oracle answering every region read with a buffer of exactly
the requested shape, sample (y, x) holding (y + 1) * 10 + x. -/
def fetchC2 : FetchReq → Except String Buffer := fun r =>
  Except.ok { h := r.yEnd - r.yStart, w := r.xEnd - r.xStart,
              val := fun y x => (y + 1) * 10 + x }

/-- The clamped 2 x 2 buffer the oracle returns for tile (1, 1):
samples 10, 11 / 20, 21. -/
def bufC2 : Buffer := { h := 2, w := 2, val := fun y x => (y + 1) * 10 + x }

/-- The canvas dataToCanvas produces from that buffer at the nominal
4 x 4 chunk geometry. -/
def cvC2 : Canvas := (dataToCanvas none none true bufC2 4 4).canvas

/-- A concrete 1 x 1 canvas used to populate a cache. -/
def cvW : Canvas := { width := 1, height := 1, data := [7, 7, 7, 255] }

/-- An adapter state whose tile cache already holds tile (0, 0, 0). -/
def stW : AdapterState :=
  { levels := [levelC2], tileCache := [("0-0-0", cvW)],
    maxCacheSize := JSVal.num 100, minValue := none, maxValue := none,
    autoNormalize := true }

/-- A fetch oracle that rejects every read, to witness that a cache hit
never consults the fetcher. -/
def fetchFail : FetchReq → Except String Buffer := fun _ =>
  Except.error "network down"

/-- A concrete viewport: origin (1/3, 1/4), 200 canvas pixels per
viewport unit, content width 1000. -/
def vsW : ViewerState :=
  { originX := 1 / 3, originY := 1 / 4, pxPerVp := 200, imageWidth := 1000 }

/-- A 1 x 2 buffer with samples 10 and 30, whose scan needs no rational
arithmetic beyond comparisons. -/
def bufMinMax : Buffer :=
  { h := 1, w := 2, val := fun _ x => if x = 0 then 10 else 30 }

/-- Map.set grows the map by at most one entry. -/
theorem mapSet_length_le {α : Type} (c : List (String × α)) (k : String) (v : α) :
    (mapSet c k v).length ≤ c.length + 1 := by
  induction c with
  | nil => simp [mapSet]
  | cons hd tl ih =>
    cases hd with
    | mk k2 v2 =>
      by_cases h : k2 = k
      · simp [mapSet, h]
      · simp only [mapSet, if_neg h, List.length_cons]
        omega

/-- One addToCache call preserves the bound size <= N for a positive
capacity N. -/
theorem addToCache_length_le {α : Type} (N : ℕ) (hN : 1 ≤ N)
    (c : List (String × α)) (h : c.length ≤ N) (k : String) (v : α) :
    (addToCache (JSVal.num N) c k v).length ≤ N := by
  unfold addToCache jsGeNum
  by_cases hfull : ((N : ℚ) ≤ (c.length : ℚ))
  · have hfull2 : N ≤ c.length := by exact_mod_cast hfull
    have hlen : c.length = N := le_antisymm h hfull2
    have hne : c ≠ [] := by
      intro hc
      rw [hc] at hlen
      simp at hlen
      omega
    have htail : c.tail.length = N - 1 := by
      rw [List.length_tail, hlen]
    simp only [decide_eq_true_eq, if_pos hfull]
    calc (mapSet c.tail k v).length ≤ c.tail.length + 1 := mapSet_length_le _ _ _
      _ = N - 1 + 1 := by rw [htail]
      _ = N := by omega
  · simp only [decide_eq_true_eq, if_neg hfull]
    have hlt : ¬ (N ≤ c.length) := by
      intro hc
      exact hfull (by exact_mod_cast hc)
    calc (mapSet c k v).length ≤ c.length + 1 := mapSet_length_le _ _ _
      _ ≤ N := by omega

/-- Running any operation sequence from a cache within its bound keeps it
within its bound. -/
theorem runOps_length_le (N : ℕ) (hN : 1 ≤ N) (ops : List CacheOp)
    (c : List (String × ℕ)) (h : c.length ≤ N) :
    (runOps (JSVal.num N) ops c).length ≤ N := by
  induction ops generalizing c with
  | nil => exact h
  | cons op rest ih =>
    cases op with
    | put k v =>
      exact ih (addToCache (JSVal.num N) c k v) (addToCache_length_le N hN c h k v)
    | get k => exact ih c h

/-- C1: for every engine level L in [0, numberOfLevels - 1] the resolution
algorithm maps L to storage level numberOfLevels - 1 - L and reads data,
and it fails with the invalid-level error exactly when that result falls
outside [0, numberOfLevels - 1]. -/
theorem c1_level_inversion (n : ℕ) (L : ℤ) :
    (0 ≤ L → L ≤ (n : ℤ) - 1 →
      resolveZarrLevel n L = Except.ok ((n : ℤ) - 1 - L)) ∧
    (zarrLevelIndex n L < 0 ∨ (n : ℤ) ≤ zarrLevelIndex n L →
      resolveZarrLevel n L = Except.error (invalidLevelMsg n (zarrLevelIndex n L))) := by
  constructor
  · intro h1 h2
    unfold resolveZarrLevel zarrLevelIndex
    rw [if_neg (by omega)]
  · intro h
    unfold resolveZarrLevel
    rw [if_pos h]

/-- Witness for C1 at 3 levels: engine level 1 resolves to storage level
1, and engine level 5 fails with the invalid-level error. -/
theorem c1_level_inversion_witness :
    resolveZarrLevel 3 1 = Except.ok 1 ∧
    resolveZarrLevel 3 5 = Except.error (invalidLevelMsg 3 (zarrLevelIndex 3 5)) := by
  constructor
  · exact (c1_level_inversion 3 1).1 (by decide) (by decide)
  · exact (c1_level_inversion 3 5).2 (by decide)

/-- C10: a falsy maxCacheSize option (absent, null, NaN or 0) yields the
default cache capacity 100; in particular capacity 0 cannot be
configured. -/
theorem c10_default_cache_size (o : Options) (h : truthy o.maxCacheSize = false) :
    (construct o).maxCacheSize = JSVal.num 100 := by
  simp [construct, jsOr, h]

/-- Witness for C10: passing maxCacheSize 0 silently yields capacity
100. -/
theorem c10_default_cache_size_witness :
    (construct { maxCacheSize := JSVal.num 0, autoNormalize := JSVal.undef,
                 fixedMin := JSVal.undef, fixedMax := JSVal.undef }).maxCacheSize
      = JSVal.num 100 :=
  c10_default_cache_size _ (by decide)

/-- C9: for a fixed viewport state with nonzero scale and content width,
canvasToImage inverts imageToCanvas exactly. -/
theorem c9_roundtrip (vs : ViewerState) (x y : ℚ)
    (h1 : vs.pxPerVp ≠ 0) (h2 : vs.imageWidth ≠ 0) :
    canvasToImage vs (imageToCanvas vs x y).1 (imageToCanvas vs x y).2 = (x, y) := by
  unfold canvasToImage imageToCanvas viewportToImageCoordinates pointFromPixel
    pixelFromPoint imageToViewportCoordinates
  apply Prod.ext
  · field_simp
    ring
  · field_simp
    ring

/-- Witness for C9 at a concrete viewport and image point. -/
theorem c9_roundtrip_witness :
    canvasToImage vsW (imageToCanvas vsW 123 456).1 (imageToCanvas vsW 123 456).2
      = (123, 456) :=
  c9_roundtrip vsW 123 456 (by decide) (by decide)

/-- C3 counterexample: constructing with fixedMin 5 and fixedMax 10 still
leaves the normalization state null, and the first tile (samples 10, 20, 30)
is auto-scanned, storing and using the range (10, 30) computed from tile
data: sample 20 renders as 128, not the 255 the fixed pair (5, 10) would
give. -/
theorem c3_fixed_range_counterexample :
    (construct { maxCacheSize := JSVal.undef, autoNormalize := JSVal.undef,
                 fixedMin := JSVal.num 5, fixedMax := JSVal.num 10 }).minValue = none ∧
    (construct { maxCacheSize := JSVal.undef, autoNormalize := JSVal.undef,
                 fixedMin := JSVal.num 5, fixedMax := JSVal.num 10 }).maxValue = none ∧
    (dataToCanvas none none true bufScenario 3 1).didScan = true ∧
    (dataToCanvas none none true bufScenario 3 1).minValue = some 10 ∧
    (dataToCanvas none none true bufScenario 3 1).maxValue = some 30 ∧
    (dataToCanvas none none true bufScenario 3 1).usedMin = 10 ∧
    (dataToCanvas none none true bufScenario 3 1).usedMax = 30 ∧
    (dataToCanvas none none true bufScenario 3 1).canvas.data.getD 4 0 = 128 ∧
    normalizePixel 20 5 10 = 255 := by
  norm_num [dataToCanvas, scanMin, scanMax, jsOrQ, bufScenario, List.range_succ,
    writePixel, normalizePixel, rangeOf, round_eq, construct]

/-- C3 amended: the fixedMin and fixedMax construction options are ignored
by the constructor, which initialises the normalization state to null
regardless of the options, so the range is always auto-computed from tile
data whenever autoNormalize is enabled. -/
theorem c3_fixed_range_ignored (o : Options) (a b : JSVal) :
    construct { o with fixedMin := a, fixedMax := b } = construct o ∧
    (construct o).minValue = none ∧ (construct o).maxValue = none := by
  exact ⟨rfl, rfl, rfl⟩

/-- C4: with a positive capacity N, a cache run from empty never exceeds N
entries whatever the sequence of puts and gets; a put on a full cache
evicts exactly the single oldest-inserted entry before inserting; a get
never changes the map; and with capacity 2 inserting A, B, C leaves
exactly B and C. -/
theorem c4_cache_fifo (N : ℕ) (hN : 1 ≤ N) :
    (∀ ops : List CacheOp, (runOps (JSVal.num N) ops []).length ≤ N) ∧
    (∀ (c : List (String × ℕ)) (k : String) (v : ℕ), c.length = N →
      addToCache (JSVal.num N) c k v = mapSet c.tail k v) ∧
    (∀ (c : List (String × ℕ)) (k : String), runOps (JSVal.num N) [CacheOp.get k] c = c) ∧
    runOps (JSVal.num 2) [CacheOp.put "A" 1, CacheOp.put "B" 2, CacheOp.put "C" 3] []
      = [("B", 2), ("C", 3)] := by
  refine ⟨?_, ?_, ?_, ?_⟩
  · intro ops
    exact runOps_length_le N hN ops [] (by simp)
  · intro c k v hc
    unfold addToCache jsGeNum
    rw [hc, if_pos (by simp)]
  · intro c k
    rfl
  · decide

/-- Witness for C4 at capacity 2 with the A, B, C scenario. -/
theorem c4_cache_fifo_witness :
    (runOps (JSVal.num 2) [CacheOp.put "A" 1, CacheOp.put "B" 2, CacheOp.put "C" 3] []).length ≤ 2 ∧
    runOps (JSVal.num 2) [CacheOp.put "A" 1, CacheOp.put "B" 2, CacheOp.put "C" 3] []
      = [("B", 2), ("C", 3)] :=
  ⟨(c4_cache_fifo 2 (by decide)).1 _, (c4_cache_fifo 2 (by decide)).2.2.2⟩

/-- C5: the per-sample intensity of the code equals the intensity written
in the spec, round(clamp((value - min) / (max - min || 1), 0, 1) * 255);
it is an integer in [0, 255]; a pixel write replicates it into R, G and B
with alpha 255; and with range (10, 30) the sample 20 maps to 128. -/
theorem c5_normalization (raw mn mx : ℚ) :
    normalizePixel raw mn mx = specIntensity raw mn mx ∧
    0 ≤ normalizePixel raw mn mx ∧ normalizePixel raw mn mx ≤ 255 ∧
    writePixel (List.replicate 4 0) 0 (normalizePixel raw mn mx) =
      [normalizePixel raw mn mx, normalizePixel raw mn mx,
        normalizePixel raw mn mx, 255] ∧
    normalizePixel 20 10 30 = 128 := by
  have hclamp : ∀ t : ℚ, min 1 (max 0 t) * 255 = min 255 (max 0 (t * 255)) := by
    intro t
    rcases le_total t 0 with h | h
    · rw [max_eq_left h, max_eq_left (by linarith), min_eq_right (by norm_num),
        min_eq_right (by norm_num), zero_mul]
    · rw [max_eq_right h, max_eq_right (by linarith)]
      rcases le_total t 1 with h1 | h1
      · rw [min_eq_right h1, min_eq_right (by linarith)]
      · rw [min_eq_left h1, min_eq_left (by linarith), one_mul]
  have hbounds : ∀ u : ℚ, (0 : ℤ) ≤ round (min 255 (max 0 u)) ∧
      round (min 255 (max 0 u)) ≤ 255 := by
    intro u
    have hlo : (0 : ℚ) ≤ min 255 (max 0 u) :=
      le_min (by norm_num) (le_max_left 0 u)
    have hhi : min 255 (max 0 u) ≤ 255 := min_le_left _ _
    rw [round_eq]
    constructor
    · exact Int.le_floor.mpr (by push_cast; linarith)
    · have : (min 255 (max 0 u) + 1 / 2 : ℚ) < 256 := by linarith
      have hfl : ⌊(min 255 (max 0 u) + 1 / 2 : ℚ)⌋ < 256 :=
        Int.floor_lt.mpr (by push_cast; linarith)
      omega
  refine ⟨?_, (hbounds _).1, (hbounds _).2, ?_, ?_⟩
  · unfold normalizePixel specIntensity rangeOf
    rw [hclamp]
  · rfl
  · norm_num [normalizePixel, rangeOf, round_eq]

/-- C6 counterexample: when the first buffer is all zeros, the stored pair
becomes (0, 0), but a later buffer holding 100 renders as intensity 100,
whereas normalizing with the stored pair (range defaulting to 1) gives
255: the falsy chain this.maxValue || max || 255 silently replaces the
stored max 0 by 255, so the stored pair is not the pair used. -/
theorem c6_stored_pair_counterexample :
    (dataToCanvas none none true bufZero 1 1).minValue = some 0 ∧
    (dataToCanvas none none true bufZero 1 1).maxValue = some 0 ∧
    (dataToCanvas (some 0) (some 0) true bufHundred 1 1).usedMax = 255 ∧
    (dataToCanvas (some 0) (some 0) true bufHundred 1 1).canvas.data.getD 0 0 = 100 ∧
    normalizePixel 100 0 0 = 255 ∧
    ¬ (dataToCanvas (some 0) (some 0) true bufHundred 1 1).canvas.data.getD 0 0
        = normalizePixel 100 0 0 := by
  norm_num [dataToCanvas, scanMin, scanMax, jsOrQ, bufZero, bufHundred,
    List.range_succ, writePixel, normalizePixel, rangeOf, round_eq,
    Option.some_ne_none, reduceCtorEq]

/-- C6 amended: under auto-normalization the (min, max) state is computed
by scanning the full extent of the first buffer, stored once, and never
rescanned or recomputed on later buffers; every buffer (including the
first) is then normalized with min equal to the stored min and max equal
to the stored max, except that a stored max of 0, being falsy, is
replaced by the default 255 (a stored min of 0 falls through to the
default 0, which is numerically the same value). -/
theorem c6_normalization_state (b1 b2 : Buffer) (m M : ℚ)
    (h1 : scanMin b1 = some m) (h2 : scanMax b1 = some M) :
    (dataToCanvas none none true b1 b1.w b1.h).minValue = some m ∧
    (dataToCanvas none none true b1 b1.w b1.h).maxValue = some M ∧
    (dataToCanvas none none true b1 b1.w b1.h).didScan = true ∧
    (dataToCanvas none none true b1 b1.w b1.h).usedMin = m ∧
    (dataToCanvas none none true b1 b1.w b1.h).usedMax = (if M = 0 then 255 else M) ∧
    (dataToCanvas (some m) (some M) true b2 b2.w b2.h).minValue = some m ∧
    (dataToCanvas (some m) (some M) true b2 b2.w b2.h).maxValue = some M ∧
    (dataToCanvas (some m) (some M) true b2 b2.w b2.h).didScan = false ∧
    (dataToCanvas (some m) (some M) true b2 b2.w b2.h).usedMin = m ∧
    (dataToCanvas (some m) (some M) true b2 b2.w b2.h).usedMax = (if M = 0 then 255 else M) := by
  by_cases hm : m = 0 <;> by_cases hM : M = 0 <;>
    simp [dataToCanvas, h1, h2, jsOrQ, hm, hM]

/-- Witness for C6 amended: a first buffer with samples 10 and 30 stores
the pair (10, 30), and a later all-zero buffer is not rescanned. -/
theorem c6_normalization_state_witness :
    (dataToCanvas none none true bufMinMax bufMinMax.w bufMinMax.h).minValue = some 10 ∧
    (dataToCanvas none none true bufMinMax bufMinMax.w bufMinMax.h).maxValue = some 30 ∧
    (dataToCanvas (some 10) (some 30) true bufZero bufZero.w bufZero.h).didScan = false ∧
    (dataToCanvas (some 10) (some 30) true bufZero bufZero.w bufZero.h).usedMax = 30 := by
  have h := c6_normalization_state bufMinMax bufZero 10 30 (by decide) (by decide)
  refine ⟨h.1, h.2.1, h.2.2.2.2.2.2.2.1, ?_⟩
  have h30 := h.2.2.2.2.2.2.2.2.2
  rw [if_neg (by norm_num)] at h30
  exact h30

/-- C7: when the cache already holds the key of the requested tile, the
tile resolution delivers an image synthesized from the cached raster (a
failure message if the image element fails to load), leaves the state
untouched, issues no region read and does not run the normalizer. -/
theorem c7_cache_hit_no_fetch (st : AdapterState)
    (fetch : FetchReq → Except String Buffer) (imgOk : Bool) (level : ℤ)
    (x y : ℕ) (cv : Canvas)
    (h : mapLookup st.tileCache (tileKey level x y) = some cv) :
    getTileImage st fetch imgOk level x y =
      { state := st,
        finishes := [if imgOk then FinishCall.success cv
                     else FinishCall.failure "Failed to load cached tile"],
        fetches := [], normCalls := 0 } := by
  unfold getTileImage
  dsimp only
  rw [h]

/-- Witness for C7: a cached tile (0, 0, 0) is served from the cache even
against a fetch oracle that rejects every read. -/
theorem c7_cache_hit_no_fetch_witness :
    getTileImage stW fetchFail true 0 0 0 =
      { state := stW, finishes := [FinishCall.success cvW],
        fetches := [], normCalls := 0 } :=
  c7_cache_hit_no_fetch stW fetchFail true 0 0 0 cvW (by decide)

/-- C8: every downloadTileStart invocation makes exactly one finish call
on its request context, whichever way the cache lookup, the level check,
the region read and the image load turn out; errors surface as the
failure callback, never as exceptions. -/
theorem c8_exactly_one_finish (st : AdapterState)
    (fetch : FetchReq → Except String Buffer) (imgOk : Bool) (level : ℤ)
    (x y : ℕ) :
    (downloadTileStart st fetch imgOk level x y).finishes.length = 1 := by
  unfold downloadTileStart getTileImage
  dsimp only
  split
  · simp
  · split
    · simp
    · split
      · simp
      · simp

set_option maxHeartbeats 2000000 in
/-- C2, the code as it stands at the failing input: on a 6 x 6 level with
4 x 4 chunks, tile (1, 1) correctly requests only the clamped in-bounds
rows [4, 6) x cols [4, 6), and the returned buffer has actual shape
2 x 2; but the produced raster is sized to the nominal 4 x 4 chunk
geometry, with the buffer sample at (1, 0) (raw 20, intensity 232)
written at flat pixel 2 (canvas position (0, 2), byte 8) while canvas
position (1, 0) (byte 16) is left zero: the samples are misplaced with a
stride of 2 inside a 4-wide ImageData. -/
theorem c2_edge_tile_raster_bug :
    (getTileImage stC2 fetchC2 true 0 1 1).fetches =
      [{ levelIndex := 0, channel := none, yStart := 4, yEnd := 6,
         xStart := 4, xEnd := 6 }] ∧
    (getTileImage stC2 fetchC2 true 0 1 1).finishes = [FinishCall.success cvC2] ∧
    (getTileImage stC2 fetchC2 true 0 1 1).normCalls = 1 ∧
    bufC2.h = 2 ∧ bufC2.w = 2 ∧
    cvC2.width = 4 ∧ cvC2.height = 4 ∧
    normalizePixel (bufC2.val 1 0) 10 21 = 232 ∧
    cvC2.data.getD 8 0 = 232 ∧
    cvC2.data.getD 16 0 = 0 ∧ cvC2.data.getD 19 0 = 0 := by
  refine ⟨by decide, rfl, by decide, rfl, rfl, rfl, rfl, ?_, ?_, ?_, ?_⟩ <;>
    norm_num [cvC2, bufC2, dataToCanvas, scanMin, scanMax, jsOrQ, writePixel,
      normalizePixel, rangeOf, round_eq, List.range_succ]

end OmeZarr
